import Mathlib

/-!
Verification of the country-trivia refresh pipeline.

The development shallowly embeds the JavaScript source:
* `services/dataProcessor.js` — `extractCurrencyCode`, `generateRandomMultiplier`,
  `calculateEstimatedGDP`, `processCountryData`;
* `services/countryService.js` — `bulkUpsertCountries`, `getAllCountries`,
  `getTopCountriesByGDP`, `updateRefreshMetadata`;
* `services/externalApi.js` — `fetchCountries`, `fetchExchangeRates`;
* `middleware/errorHandler.js` — `errorHandler`;
* `controllers/countryController.js` — `refreshCountries`.

Numbers are modelled as rationals, JS `null`/`undefined`/missing fields as
`Option`, thrown exceptions as `Except`, `Math.random()` as an explicit
rational parameter `r` with `0 ≤ r < 1` (one fresh draw per record via a
stream `rs : Nat → ℚ`), and the MySQL store as a list of rows together with
transactional (all-or-nothing) semantics for `bulkUpsertCountries`.
-/

/-- JS truthiness of a possibly-absent number: `undefined`, `null` and `0`
are falsy. -/
def jsTruthyNum : Option ℚ → Bool
  | none => false
  | some q => q != 0

/-- JS truthiness of a possibly-absent string: `undefined`, `null` and the
empty string are falsy. -/
def jsTruthyStr : Option String → Bool
  | none => false
  | some s => s != ""

/-- JS `x || null` on a string-valued expression: a falsy value degrades to
`null`. -/
def jsStrOrNull (x : Option String) : Option String :=
  if jsTruthyStr x then x else none

/-- One entry of a `currencies` array that is itself a real object; its
`code` property may be missing (`none`). -/
structure CurrencyEntry where
  code : Option String
deriving DecidableEq, Repr

/-- A raw country object as delivered by the external API.  Every field may
be absent.  The `currencies` field is `none` when missing or not an array;
an element of the array is `none` when it is `null`/`undefined` (property
access on such an element throws in JS). -/
structure RawCountry where
  name : Option String
  capital : Option String
  region : Option String
  population : Option ℚ
  currencies : Option (List (Option CurrencyEntry))
  flag : Option String
deriving DecidableEq, Repr

/-- A reconciled country record as built by `processCountryData` (and as
stored in the `countries` table). -/
structure CountryRecord where
  name : String
  capital : Option String
  region : Option String
  population : ℚ
  currency_code : Option String
  exchange_rate : Option ℚ
  estimated_gdp : Option ℚ
  flag_url : Option String
deriving DecidableEq, Repr

/-- The exchange-rate table: an association list from currency code to
rate, standing for the plain JSON object `response.data.rates`. -/
def ExchangeRates : Type := List (String × ℚ)

/-- `extractCurrencyCode(currencies)` from `dataProcessor.js`.

```js
if (!currencies || !Array.isArray(currencies) || currencies.length === 0) return null;
const firstCurrency = currencies[0];
return firstCurrency.code || null;
```

When the first element of the array is `null`/`undefined`, the property
access `firstCurrency.code` throws a `TypeError`, modelled by `.error ()`. -/
def extractCurrencyCode : Option (List (Option CurrencyEntry)) → Except Unit (Option String)
  | none => .ok none
  | some [] => .ok none
  | some (none :: _) => .error ()
  | some (some e :: _) => .ok (jsStrOrNull e.code)

/-- `generateRandomMultiplier()`: `Math.random() * (2000 - 1000) + 1000`,
with the `Math.random()` draw `r` made explicit. -/
def generateRandomMultiplier (r : ℚ) : ℚ := r * (2000 - 1000) + 1000

/-- `parseFloat(x.toFixed(2))`: rounding to two decimal places. -/
def round2 (q : ℚ) : ℚ := (round (q * 100) : ℤ) / 100

/-- `calculateEstimatedGDP(population, exchangeRate)` from
`dataProcessor.js`, with the random draw `r` made explicit:

```js
if (!population || !exchangeRate) return null;
const multiplier = generateRandomMultiplier();
const gdp = (population * multiplier) / exchangeRate;
return parseFloat(gdp.toFixed(2));
``` -/
def calculateEstimatedGDP (r : ℚ) (population exchangeRate : Option ℚ) : Option ℚ :=
  if !jsTruthyNum population || !jsTruthyNum exchangeRate then none
  else
    let multiplier := generateRandomMultiplier r
    let gdp := (population.getD 0 * multiplier) / exchangeRate.getD 0
    some (round2 gdp)

/-- The body of the `countries.map(country => …)` callback in
`processCountryData`, for one record, with its fresh random draw `r`. -/
def processCountry (exchangeRates : ExchangeRates) (r : ℚ) (country : RawCountry) :
    Except Unit CountryRecord :=
  match extractCurrencyCode country.currencies with
  | .error e => .error e
  | .ok currencyCode =>
    let rateLookup : Option ℚ := currencyCode.bind (fun c => List.lookup c exchangeRates)
    let pair : Option ℚ × Option ℚ :=
      if jsTruthyStr currencyCode && jsTruthyNum rateLookup then
        (rateLookup, calculateEstimatedGDP r country.population rateLookup)
      else if jsTruthyStr currencyCode then
        (none, none)
      else
        (none, some 0)
    .ok
      { name := (jsStrOrNull country.name).getD ""
        capital := jsStrOrNull country.capital
        region := jsStrOrNull country.region
        population := if jsTruthyNum country.population then country.population.getD 0 else 0
        currency_code := currencyCode
        exchange_rate := pair.1
        estimated_gdp := pair.2
        flag_url := jsStrOrNull country.flag }

/-- Sequential evaluation of the `map` callback, index `i` selecting the
fresh random draw `rs i` for each record; a thrown exception aborts the
whole traversal, exactly as a throwing callback aborts `Array.map`. -/
def processCountryDataAux (exchangeRates : ExchangeRates) (rs : Nat → ℚ) (i : Nat) :
    List RawCountry → Except Unit (List CountryRecord)
  | [] => .ok []
  | c :: cs =>
    match processCountry exchangeRates (rs i) c with
    | .error e => .error e
    | .ok rec =>
      match processCountryDataAux exchangeRates rs (i + 1) cs with
      | .error e => .error e
      | .ok rest => .ok (rec :: rest)

/-- `processCountryData(countries, exchangeRates)` from `dataProcessor.js`. -/
def processCountryData (exchangeRates : ExchangeRates) (rs : Nat → ℚ)
    (countries : List RawCountry) : Except Unit (List CountryRecord) :=
  processCountryDataAux exchangeRates rs 0 countries

/-- Well-formedness of a `currencies` value as far as the reconciler's
exception behaviour is concerned: the first element of a non-empty array
must not be `null`/`undefined` (property access on it would throw). -/
def goodFirstCurrency : Option (List (Option CurrencyEntry)) → Bool
  | some (none :: _) => false
  | _ => true

/-! ## The snapshot store (`services/countryService.js`)

The `countries` table is a list of rows whose `name` column is unique under
the case-insensitive `utf8mb4_unicode_ci` collation.  `bulkUpsertCountries`
runs every `INSERT … ON DUPLICATE KEY UPDATE` inside one transaction and
rolls the whole transaction back if any statement fails; statement failures
are injected through an oracle `ok : Nat → Bool` giving the fate of the
`i`-th statement. -/

/-- Case-insensitive string equality, standing for the
`utf8mb4_unicode_ci` collation used by the `countries` table. -/
def lowerEq (a b : String) : Bool := a.toLower == b.toLower

/-- One `INSERT … ON DUPLICATE KEY UPDATE` statement applied to the table:
on a (case-insensitive) name conflict every listed column is overwritten
but the stored `name` itself is kept; otherwise the row is appended. -/
def upsertRow (rows : List CountryRecord) (c : CountryRecord) : List CountryRecord :=
  if rows.any (fun row => lowerEq row.name c.name) then
    rows.map (fun row => if lowerEq row.name c.name then { c with name := row.name } else row)
  else
    rows ++ [c]

/-- The statement loop of `bulkUpsertCountries`, acting on the
transaction's working copy `tx`; the `i`-th statement succeeds iff `ok i`. -/
def txUpsertLoop (ok : Nat → Bool) (i : Nat) (tx : List CountryRecord) :
    List CountryRecord → Except Unit (List CountryRecord)
  | [] => .ok tx
  | c :: cs =>
    if ok i then txUpsertLoop ok (i + 1) (upsertRow tx c) cs
    else .error ()

/-- `bulkUpsertCountries(countries)`: begin a transaction, run the upsert
loop, commit and return `countries.length` on success; on any statement
failure roll back (the committed table is unchanged) and rethrow.  The
result pairs the JS return/throw with the committed table afterwards. -/
def bulkUpsertCountries (ok : Nat → Bool) (db : List CountryRecord)
    (countries : List CountryRecord) : Except Unit Nat × List CountryRecord :=
  match txUpsertLoop ok 0 db countries with
  | .ok tx => (.ok countries.length, tx)
  | .error e => (.error e, db)

/-- Query filters of `GET /countries` as assembled by the controller. -/
structure Filters where
  region : Option String
  currency : Option String
deriving DecidableEq, Repr

/-- The SQL `WHERE` clause of `getAllCountries`: `region = ?` and
`currency_code = ?` under the case-insensitive collation; a SQL `NULL`
column never equals a parameter. -/
def matchesFilters (f : Filters) (row : CountryRecord) : Bool :=
  (match f.region with
    | none => true
    | some reg => match row.region with
      | none => false
      | some rr => lowerEq rr reg) &&
  (match f.currency with
    | none => true
    | some cur => match row.currency_code with
      | none => false
      | some cc => lowerEq cc cur)

/-- Case-insensitive string order on the underlying character lists. -/
def charListLe : List Char → List Char → Bool
  | [], _ => true
  | _ :: _, [] => false
  | a :: as, b :: bs => if a = b then charListLe as bs else decide (a < b)

/-- `ORDER BY name` comparison under the case-insensitive collation. -/
def nameLe (a b : String) : Bool := charListLe a.toLower.toList b.toLower.toList

/-- MySQL `ORDER BY col ASC` on a nullable column: `NULL` sorts first. -/
def optLeAsc : Option ℚ → Option ℚ → Bool
  | none, _ => true
  | some _, none => false
  | some x, some y => decide (x ≤ y)

/-- MySQL `ORDER BY col DESC` on a nullable column: `NULL` sorts last. -/
def optLeDesc : Option ℚ → Option ℚ → Bool
  | none, none => true
  | none, some _ => false
  | some _, none => true
  | some x, some y => decide (y ≤ x)

/-- The `ORDER BY` clause chosen by `getAllCountries`; every unrecognized
or absent `sort` value falls back to `ORDER BY name ASC`. -/
def sortLe (sort : Option String) (a b : CountryRecord) : Bool :=
  match sort with
  | some "gdp_desc" => optLeDesc a.estimated_gdp b.estimated_gdp
  | some "gdp_asc" => optLeAsc a.estimated_gdp b.estimated_gdp
  | some "population_desc" => decide (b.population ≤ a.population)
  | some "population_asc" => decide (a.population ≤ b.population)
  | some "name_desc" => nameLe b.name a.name
  | _ => nameLe a.name b.name

/-- Stable insertion into a list sorted by `le`. -/
def insertSorted (le : CountryRecord → CountryRecord → Bool) (x : CountryRecord) :
    List CountryRecord → List CountryRecord
  | [] => [x]
  | y :: ys => if le x y then x :: y :: ys else y :: insertSorted le x ys

/-- Sorting of the result set by the chosen `ORDER BY` clause. -/
def sortRows (le : CountryRecord → CountryRecord → Bool) (rows : List CountryRecord) :
    List CountryRecord :=
  rows.foldr (insertSorted le) []

/-- `getAllCountries(filters, sort)`: `SELECT * FROM countries` with the
optional filters and the chosen ordering. -/
def getAllCountries (rows : List CountryRecord) (f : Filters) (sort : Option String) :
    List CountryRecord :=
  sortRows (sortLe sort) (rows.filter (matchesFilters f))

/-- `getTopCountriesByGDP(limit)`: rows with non-`NULL` `estimated_gdp`,
ordered by `estimated_gdp DESC`, first `limit` of them. -/
def getTopCountriesByGDP (rows : List CountryRecord) (limit : Nat) : List CountryRecord :=
  (sortRows (fun a b => optLeDesc a.estimated_gdp b.estimated_gdp)
    (rows.filter (fun row => row.estimated_gdp.isSome))).take limit

/-- The singleton `refresh_metadata` row. -/
structure RefreshMetadata where
  total_countries : Nat
  last_refreshed_at : Option Nat
deriving DecidableEq, Repr

/-- The persistent state the refresh touches: the `countries` table and
the `refresh_metadata` row. -/
structure SystemState where
  countries : List CountryRecord
  metadata : RefreshMetadata
deriving DecidableEq, Repr

/-- `updateRefreshMetadata()`: recount the rows of the `countries` table
and store the count with the current time `now`. -/
def updateRefreshMetadata (now : Nat) (st : SystemState) : SystemState :=
  { st with metadata := { total_countries := st.countries.length, last_refreshed_at := some now } }

/-! ## External fetches (`services/externalApi.js`) and error mapping
(`middleware/errorHandler.js`) -/

/-- Outcome of one external HTTP call: a payload, a timeout
(`error.code === 'ECONNABORTED'`), or any other axios failure with its
message.  A malformed exchange-rate response is a `failure` whose message
is `"Invalid response format from Exchange Rate API"`, since that throw is
caught by the function's own `catch` and rewrapped. -/
inductive FetchOutcome (α : Type) where
  | success : α → FetchOutcome α
  | timeout : FetchOutcome α
  | failure : String → FetchOutcome α

/-- A thrown JS `Error` as the error handler sees it: `message`, `name`,
and the optional `statusCode`/`details` that `AppError` adds. -/
structure JsError where
  message : String
  name : String
  statusCode : Option Nat
  details : Option String
deriving DecidableEq, Repr

/-- `fetchCountries()` from `externalApi.js`, over the outcome of the
underlying HTTP call. -/
def fetchCountries (o : FetchOutcome (List RawCountry)) : Except JsError (List RawCountry) :=
  match o with
  | .success data => .ok data
  | .timeout => .error { message := "Countries API request timed out",
                         name := "Error", statusCode := none, details := none }
  | .failure msg => .error { message := "Could not fetch data from Countries API: " ++ msg,
                             name := "Error", statusCode := none, details := none }

/-- `fetchExchangeRates()` from `externalApi.js`, over the outcome of the
underlying HTTP call. -/
def fetchExchangeRates (o : FetchOutcome ExchangeRates) : Except JsError ExchangeRates :=
  match o with
  | .success rates => .ok rates
  | .timeout => .error { message := "Exchange Rate API request timed out",
                         name := "Error", statusCode := none, details := none }
  | .failure msg => .error { message := "Could not fetch data from Exchange Rate API: " ++ msg,
                             name := "Error", statusCode := none, details := none }

/-- Character-list equality test for the substring search. -/
def prefixMatch : List Char → List Char → Bool
  | [], _ => true
  | _ :: _, [] => false
  | a :: as, b :: bs => a == b && prefixMatch as bs

/-- Does `needle` occur as a contiguous sublist of the second argument? -/
def subMatch (needle : List Char) : List Char → Bool
  | [] => prefixMatch needle []
  | c :: rest => prefixMatch needle (c :: rest) || subMatch needle rest

/-- JS `haystack.includes(needle)`. -/
def strIncludes (haystack needle : String) : Bool :=
  subMatch needle.toList haystack.toList

/-- The JSON error envelope produced by the error handler. -/
structure ErrorResponse where
  error : String
  details : Option String
deriving DecidableEq, Repr

/-- `errorHandler(err, …)` from `middleware/errorHandler.js`: HTTP status
plus envelope.

```js
let statusCode = 500; let errorResponse = { error: 'Internal server error' };
if (err.statusCode) { statusCode = err.statusCode; errorResponse.error = err.message;
  if (err.details) errorResponse.details = err.details; }
else if (err.name === 'ValidationError') { … 400 … }
else if (err.message && err.message.includes('Could not fetch data from')) {
  statusCode = 503; errorResponse.error = 'External data source unavailable';
  errorResponse.details = err.message; }
``` -/
def errorHandler (err : JsError) : Nat × ErrorResponse :=
  match err.statusCode with
  | some sc => (sc, { error := err.message, details := err.details })
  | none =>
    if err.name == "ValidationError" then
      (400, { error := "Validation failed", details := err.details })
    else if strIncludes err.message "Could not fetch data from" then
      (503, { error := "External data source unavailable", details := some err.message })
    else
      (500, { error := "Internal server error", details := none })

/-! ## The refresh orchestrator (`controllers/countryController.js`) -/

/-- The success payload of `POST /countries/refresh`. -/
structure RefreshResponse where
  message : String
  countries_processed : Nat
  last_refreshed_at : Option Nat
deriving DecidableEq, Repr

/-- The `TypeError` thrown when `processCountryData` dereferences a null
currency entry. -/
def typeErrorJs : JsError :=
  { message := "Cannot read properties of null", name := "TypeError",
    statusCode := none, details := none }

/-- A database statement failure surfaced by `bulkUpsertCountries`. -/
def dbErrorJs : JsError :=
  { message := "Database query failed", name := "Error",
    statusCode := none, details := none }

/-- A failure of `generateSummaryImage` (e.g. `sharp` or the filesystem). -/
def renderErrorJs : JsError :=
  { message := "Image rendering failed", name := "Error",
    statusCode := none, details := none }

/-- `refreshCountries(req, res, next)`: fetch both sources, reconcile,
bulk-upsert, update metadata, render the summary image, respond.  Any
thrown error is passed to `next(error)` (modelled as `.error`); the second
component is the persistent state afterwards.  `fcO`/`frO` are the
outcomes of the two concurrent fetches, `ok` the statement oracle of the
bulk upsert, `rs` the stream of `Math.random()` draws, `renderOk` whether
image rendering succeeds, and `now` the clock. -/
def refreshCountries (fcO : FetchOutcome (List RawCountry)) (frO : FetchOutcome ExchangeRates)
    (ok : Nat → Bool) (rs : Nat → ℚ) (renderOk : Bool) (now : Nat) (st : SystemState) :
    Except JsError RefreshResponse × SystemState :=
  match fetchCountries fcO with
  | .error e => (.error e, st)
  | .ok countries =>
    match fetchExchangeRates frO with
    | .error e => (.error e, st)
    | .ok exchangeRates =>
      match processCountryData exchangeRates rs countries with
      | .error _ => (.error typeErrorJs, st)
      | .ok processedCountries =>
        match bulkUpsertCountries ok st.countries processedCountries with
        | (.error _, rows) => (.error dbErrorJs, { st with countries := rows })
        | (.ok count, rows) =>
          let committed := updateRefreshMetadata now { st with countries := rows }
          if renderOk then
            (.ok { message := "Countries data refreshed successfully",
                   countries_processed := count,
                   last_refreshed_at := committed.metadata.last_refreshed_at }, committed)
          else
            (.error renderErrorJs, committed)

/-! ## Helper lemmas -/

/-- Rounding to two decimals moves a rational by at most `1/200`. -/
theorem round2_bounds (q : ℚ) : q - 1/200 ≤ round2 q ∧ round2 q ≤ q + 1/200 := by
  have h := abs_sub_round (q * 100)
  rw [abs_le] at h
  obtain ⟨h1, h2⟩ := h
  unfold round2
  constructor <;> linarith

/-- The multiplier drawn from `Math.random() * (2000 - 1000) + 1000` lies
in `[1000, 2000)`. -/
theorem multiplier_bounds (r : ℚ) (h0 : 0 ≤ r) (h1 : r < 1) :
    1000 ≤ generateRandomMultiplier r ∧ generateRandomMultiplier r < 2000 := by
  unfold generateRandomMultiplier
  constructor <;> nlinarith

/-- If any statement of the transaction loop fails, the loop raises. -/
theorem txUpsertLoop_err (ok : Nat → Bool) (cs : List CountryRecord) (start : Nat)
    (tx : List CountryRecord) (h : ∃ j, j < cs.length ∧ ok (start + j) = false) :
    txUpsertLoop ok start tx cs = .error () := by
  induction cs generalizing start tx with
  | nil => obtain ⟨j, hj, _⟩ := h; simp at hj
  | cons c rest ih =>
    obtain ⟨j, hj, hfail⟩ := h
    by_cases hok : ok start = true
    · simp only [txUpsertLoop, hok, if_true]
      apply ih
      cases j with
      | zero => rw [Nat.add_zero] at hfail; rw [hfail] at hok; cases hok
      | succ k =>
        refine ⟨k, ?_, ?_⟩
        · simpa using hj
        · rw [← hfail]; ring_nf
    · simp only [txUpsertLoop]
      rw [if_neg hok]

/-- If every statement succeeds, the transaction loop upserts the whole
batch left to right. -/
theorem txUpsertLoop_all_ok (ok : Nat → Bool) (cs : List CountryRecord) (start : Nat)
    (tx : List CountryRecord) (h : ∀ j, ok j = true) :
    txUpsertLoop ok start tx cs = .ok (cs.foldl upsertRow tx) := by
  induction cs generalizing start tx with
  | nil => rfl
  | cons c rest ih => simp [txUpsertLoop, h, List.foldl, ih]

/-- A bulk upsert whose statements all succeed commits the whole batch and
returns the batch size. -/
theorem bulkUpsertCountries_all_ok (db countries : List CountryRecord) :
    bulkUpsertCountries (fun _ => true) db countries =
      (.ok countries.length, countries.foldl upsertRow db) := by
  simp [bulkUpsertCountries, txUpsertLoop_all_ok (fun _ => true) countries 0 db (fun _ => rfl)]

/-- A list is a prefix of itself extended by anything. -/
theorem prefixMatch_self_append (n rest : List Char) : prefixMatch n (n ++ rest) = true := by
  induction n with
  | nil => rfl
  | cons a as ih => simp [prefixMatch, ih]

/-- A prefix occurrence is an occurrence. -/
theorem subMatch_of_prefixMatch (n hay : List Char) (h : prefixMatch n hay = true) :
    subMatch n hay = true := by
  cases hay <;> simp [subMatch, h]

/-- A string contains every needle its character list starts with. -/
theorem strIncludes_of_toList_split (hay needle : String) (rest : List Char)
    (h : hay.toList = needle.toList ++ rest) : strIncludes hay needle = true := by
  unfold strIncludes
  rw [h]
  exact subMatch_of_prefixMatch _ _ (prefixMatch_self_append _ _)

/-- A record whose `currencies` value has no null first element is
reconciled without an exception. -/
theorem processCountry_ok_of_good (rates : ExchangeRates) (r : ℚ) (c : RawCountry)
    (h : goodFirstCurrency c.currencies = true) :
    (processCountry rates r c).map (fun _ => ()) = .ok () := by
  rcases hc : c.currencies with _ | l
  · simp [processCountry, extractCurrencyCode, hc, Except.map]
  · rcases l with _ | ⟨o, t⟩
    · simp [processCountry, extractCurrencyCode, hc, Except.map]
    · rcases o with _ | e
      · rw [hc] at h; simp [goodFirstCurrency] at h
      · simp only [processCountry, extractCurrencyCode, hc, Except.map]

/-- On a batch of well-formed records the traversal succeeds with one
output per input, for any starting index into the random stream. -/
theorem processCountryDataAux_length (rates : ExchangeRates) (rs : Nat → ℚ)
    (countries : List RawCountry) (i : Nat)
    (h : ∀ c ∈ countries, goodFirstCurrency c.currencies = true) :
    (processCountryDataAux rates rs i countries).map List.length = .ok countries.length := by
  induction countries generalizing i with
  | nil => rfl
  | cons c cs ih =>
    have h1 := processCountry_ok_of_good rates (rs i) c (h c (by simp))
    rcases hpc : processCountry rates (rs i) c with e | rec
    · rw [hpc] at h1; simp [Except.map] at h1
    · have h2 := ih (i + 1) (fun x hx => h x (by simp [hx]))
      rcases haux : processCountryDataAux rates rs (i + 1) cs with e2 | out
      · rw [haux] at h2; simp [Except.map] at h2
      · rw [haux] at h2
        simp only [Except.map] at h2
        simp only [processCountryDataAux, hpc, haux, Except.map]
        simp at h2 ⊢
        exact h2

/-! ## Claim C1 -/

/-- Claim C1, amended: for a record whose first currency code resolves in
the rate table and whose population is 0, the reconciled `estimated_gdp`
is `null`, not 0 — `calculateEstimatedGDP` treats a population of 0 as
falsy and bails out — while `exchange_rate` is still set from the table. -/
theorem population_zero_gdp_null (rates : ExchangeRates) (r : ℚ) (c : RawCountry)
    (e : CurrencyEntry) (tail : List (Option CurrencyEntry)) (code : String) (R : ℚ)
    (hcur : c.currencies = some (some e :: tail)) (hcode : e.code = some code)
    (hne : code ≠ "") (hlook : List.lookup code rates = some R) (hR : R ≠ 0)
    (hpop : c.population = some 0) :
    (processCountry rates r c).map
      (fun rec => (rec.currency_code, rec.exchange_rate, rec.estimated_gdp)) =
      .ok (some code, some R, none) := by
  simp [processCountry, extractCurrencyCode, calculateEstimatedGDP, hcur, hcode, hne,
    hlook, hR, hpop, jsStrOrNull, jsTruthyStr, jsTruthyNum, Except.map]

/-- Claim C1, witness: the amended statement at a concrete record with
population 0 and resolvable code `NGN`. -/
theorem population_zero_gdp_null_witness :
    (processCountry [("NGN", 1600)] 0
      { name := some "Nigeria", capital := none, region := none, population := some 0,
        currencies := some [some { code := some "NGN" }], flag := none }).map
      (fun rec => (rec.currency_code, rec.exchange_rate, rec.estimated_gdp)) =
      .ok (some "NGN", some 1600, none) :=
  population_zero_gdp_null [("NGN", 1600)] 0
    { name := some "Nigeria", capital := none, region := none, population := some 0,
      currencies := some [some { code := some "NGN" }], flag := none }
    { code := some "NGN" } [] "NGN" 1600 rfl rfl (by decide) rfl (by norm_num) rfl

/-- Claim C1, counterexample to the claim as stated: at a record with
population 0 and resolvable code `NGN` the code produces
`estimated_gdp = null`, which is not the exact arithmetic zero the claim
requires. -/
theorem population_zero_gdp_not_zero_cex :
    (processCountry [("NGN", 1600)] 0
      { name := some "Nigeria", capital := none, region := none, population := some 0,
        currencies := some [some { code := some "NGN" }], flag := none }).map
      (fun rec => rec.estimated_gdp) = .ok none ∧
    (Except.ok none : Except Unit (Option ℚ)) ≠ .ok (some 0) := by
  constructor
  · simp [processCountry, extractCurrencyCode, calculateEstimatedGDP,
      jsTruthyNum, jsTruthyStr, jsStrOrNull, Except.map]
  · simp

/-! ## Claim C2 -/

/-- Claim C2: a record whose currencies array is empty or absent is
reconciled to `currency_code = null`, `exchange_rate = null` and
`estimated_gdp = 0` exactly. -/
theorem empty_currencies_record (rates : ExchangeRates) (r : ℚ) (c : RawCountry)
    (h : c.currencies = none ∨ c.currencies = some []) :
    (processCountry rates r c).map
      (fun rec => (rec.currency_code, rec.exchange_rate, rec.estimated_gdp)) =
      .ok (none, none, some 0) := by
  rcases h with h | h <;>
    simp [processCountry, extractCurrencyCode, h, jsTruthyStr, Except.map]

/-- Claim C2, witness: the statement at a concrete record with an empty
currencies array. -/
theorem empty_currencies_record_witness :
    (processCountry [("NGN", 1600)] 0
      { name := some "Atlantis", capital := none, region := none, population := some 1000,
        currencies := some [], flag := none }).map
      (fun rec => (rec.currency_code, rec.exchange_rate, rec.estimated_gdp)) =
      .ok (none, none, some 0) :=
  empty_currencies_record [("NGN", 1600)] 0
    { name := some "Atlantis", capital := none, region := none, population := some 1000,
      currencies := some [], flag := none } (Or.inr rfl)

/-! ## Claim C3 -/

/-- Claim C3, counterexample to the claim as stated: with population 1 and
rate 300000 the draw `m = 1000` gives `1000/300000 ≈ 0.0033`, which rounds
to `0.00` — strictly below the claimed lower bound `P×1000/R = 1/300`, so
the rounded value does not lie in `[P×1000/R, P×2000/R]`. -/
theorem gdp_interval_cex :
    (processCountry [("USD", 300000)] 0
      { name := some "Tinyland", capital := none, region := none, population := some 1,
        currencies := some [some { code := some "USD" }], flag := none }).map
      (fun rec => rec.estimated_gdp) = .ok (some 0) ∧
    ¬((1 : ℚ) * 1000 / 300000 ≤ 0) := by
  constructor
  · simp [processCountry, extractCurrencyCode, calculateEstimatedGDP, generateRandomMultiplier,
      jsTruthyNum, jsTruthyStr, jsStrOrNull, Except.map, round2]
    norm_num [round_eq]
  · norm_num

/-- Claim C3, amended: for a record with positive population `P` and a
code resolving to rate `R > 0`, `estimated_gdp` equals
`round₂(P × m / R)` for the drawn multiplier `m ∈ [1000, 2000)`, and
therefore lies in the interval `[P×1000/R − 1/200, P×2000/R + 1/200]`
(the original closed interval widened by the worst-case rounding error;
population 0 is excluded because the code then yields `null`, see C1). -/
theorem gdp_interval_amended (rates : ExchangeRates) (r : ℚ) (c : RawCountry)
    (e : CurrencyEntry) (tail : List (Option CurrencyEntry)) (code : String) (P R : ℚ)
    (hcur : c.currencies = some (some e :: tail)) (hcode : e.code = some code)
    (hne : code ≠ "") (hlook : List.lookup code rates = some R)
    (hpop : c.population = some P) (hP : 0 < P) (hR : 0 < R)
    (hr0 : 0 ≤ r) (hr1 : r < 1) :
    1000 ≤ generateRandomMultiplier r ∧ generateRandomMultiplier r < 2000 ∧
    (processCountry rates r c).map (fun rec => (rec.exchange_rate, rec.estimated_gdp)) =
      .ok (some R, some (round2 (P * generateRandomMultiplier r / R))) ∧
    P * 1000 / R - 1/200 ≤ round2 (P * generateRandomMultiplier r / R) ∧
    round2 (P * generateRandomMultiplier r / R) ≤ P * 2000 / R + 1/200 := by
  obtain ⟨hm1, hm2⟩ := multiplier_bounds r hr0 hr1
  have hxl : P * 1000 / R ≤ P * generateRandomMultiplier r / R := by
    gcongr
  have hxu : P * generateRandomMultiplier r / R ≤ P * 2000 / R := by
    gcongr
  obtain ⟨hb1, hb2⟩ := round2_bounds (P * generateRandomMultiplier r / R)
  refine ⟨hm1, hm2, ?_, by linarith, by linarith⟩
  simp [processCountry, extractCurrencyCode, calculateEstimatedGDP, hcur, hcode, hne,
    hlook, hR.ne', hP.ne', hpop, jsStrOrNull, jsTruthyStr, jsTruthyNum, Except.map]

/-- Claim C3, witness: the amended statement at population 16, rate 1600
and draw 0. -/
theorem gdp_interval_amended_witness :
    1000 ≤ generateRandomMultiplier 0 ∧ generateRandomMultiplier 0 < 2000 ∧
    (processCountry [("NGN", 1600)] 0
      { name := some "Witland", capital := none, region := none, population := some 16,
        currencies := some [some { code := some "NGN" }], flag := none }).map
      (fun rec => (rec.exchange_rate, rec.estimated_gdp)) =
      .ok (some 1600, some (round2 (16 * generateRandomMultiplier 0 / 1600))) ∧
    (16 : ℚ) * 1000 / 1600 - 1/200 ≤ round2 (16 * generateRandomMultiplier 0 / 1600) ∧
    round2 (16 * generateRandomMultiplier 0 / 1600) ≤ (16 : ℚ) * 2000 / 1600 + 1/200 :=
  gdp_interval_amended [("NGN", 1600)] 0
    { name := some "Witland", capital := none, region := none, population := some 16,
      currencies := some [some { code := some "NGN" }], flag := none }
    { code := some "NGN" } [] "NGN" 16 1600 rfl rfl (by decide) rfl rfl
    (by norm_num) (by norm_num) le_rfl (by norm_num)

/-! ## Claim C4 -/

/-- Claim C4: a record whose extracted currency code is non-null but
absent from the rate table is reconciled with `exchange_rate = null` and
`estimated_gdp = null` together. -/
theorem unknown_code_both_null (rates : ExchangeRates) (r : ℚ) (c : RawCountry)
    (e : CurrencyEntry) (tail : List (Option CurrencyEntry)) (code : String)
    (hcur : c.currencies = some (some e :: tail)) (hcode : e.code = some code)
    (hne : code ≠ "") (hlook : List.lookup code rates = none) :
    (processCountry rates r c).map
      (fun rec => (rec.currency_code, rec.exchange_rate, rec.estimated_gdp)) =
      .ok (some code, none, none) := by
  simp [processCountry, extractCurrencyCode, hcur, hcode, hne, hlook,
    jsStrOrNull, jsTruthyStr, jsTruthyNum, Except.map]

/-- Claim C4, witness: the statement at a concrete record whose code
`XXX` is not in the table. -/
theorem unknown_code_both_null_witness :
    (processCountry [("NGN", 1600)] 0
      { name := some "Xanadu", capital := none, region := none, population := some 9,
        currencies := some [some { code := some "XXX" }], flag := none }).map
      (fun rec => (rec.currency_code, rec.exchange_rate, rec.estimated_gdp)) =
      .ok (some "XXX", none, none) :=
  unknown_code_both_null [("NGN", 1600)] 0
    { name := some "Xanadu", capital := none, region := none, population := some 9,
      currencies := some [some { code := some "XXX" }], flag := none }
    { code := some "XXX" } [] "XXX" rfl rfl (by decide) rfl

/-! ## Claim C5 -/

/-- Claim C5: if any statement of the batch fails, `bulkUpsertCountries`
raises and the committed table is exactly the pre-refresh table, so a
subsequent `findAll` (any filters, any sort) returns the pre-refresh
record set. -/
theorem bulk_upsert_rollback (ok : Nat → Bool) (db countries : List CountryRecord)
    (f : Filters) (sort : Option String)
    (h : ∃ j, j < countries.length ∧ ok j = false) :
    bulkUpsertCountries ok db countries = (.error (), db) ∧
    getAllCountries (bulkUpsertCountries ok db countries).2 f sort =
      getAllCountries db f sort := by
  have herr : txUpsertLoop ok 0 db countries = .error () := by
    apply txUpsertLoop_err
    simpa using h
  constructor
  · simp [bulkUpsertCountries, herr]
  · simp [bulkUpsertCountries, herr]

/-- Claim C5, witness: a two-record batch whose second statement fails is
rolled back to the empty pre-refresh table. -/
theorem bulk_upsert_rollback_witness :
    bulkUpsertCountries (fun j => j != 1) []
      [{ name := "A", capital := none, region := none, population := 1, currency_code := none,
         exchange_rate := none, estimated_gdp := some 0, flag_url := none },
       { name := "B", capital := none, region := none, population := 2, currency_code := none,
         exchange_rate := none, estimated_gdp := some 0, flag_url := none }] =
      (.error (), []) ∧
    getAllCountries (bulkUpsertCountries (fun j => j != 1) []
      [{ name := "A", capital := none, region := none, population := 1, currency_code := none,
         exchange_rate := none, estimated_gdp := some 0, flag_url := none },
       { name := "B", capital := none, region := none, population := 2, currency_code := none,
         exchange_rate := none, estimated_gdp := some 0, flag_url := none }]).2
      { region := none, currency := none } none =
    getAllCountries [] { region := none, currency := none } none :=
  bulk_upsert_rollback (fun j => j != 1) []
    [{ name := "A", capital := none, region := none, population := 1, currency_code := none,
       exchange_rate := none, estimated_gdp := some 0, flag_url := none },
     { name := "B", capital := none, region := none, population := 2, currency_code := none,
       exchange_rate := none, estimated_gdp := some 0, flag_url := none }]
    { region := none, currency := none } none ⟨1, by decide, rfl⟩

/-! ## Claim C6 -/

/-- Claim C6: if either external fetch fails (timeout or otherwise),
`refreshCountries` returns an error and the persistent state — the
`countries` table and the `refresh_metadata` row — is exactly as before
the call. -/
theorem fetch_failure_aborts (fcO : FetchOutcome (List RawCountry))
    (frO : FetchOutcome ExchangeRates) (ok : Nat → Bool) (rs : Nat → ℚ)
    (renderOk : Bool) (now : Nat) (st : SystemState)
    (h : (fetchCountries fcO).isOk = false ∨ (fetchExchangeRates frO).isOk = false) :
    (refreshCountries fcO frO ok rs renderOk now st).2 = st ∧
    (refreshCountries fcO frO ok rs renderOk now st).1.isOk = false := by
  cases fcO <;> cases frO <;>
    simp_all [refreshCountries, fetchCountries, fetchExchangeRates, Except.isOk, Except.toBool]

/-- Claim C6, witness: a countries-fetch timeout leaves a concrete state
untouched and yields an error result. -/
theorem fetch_failure_aborts_witness :
    (refreshCountries .timeout (.success []) (fun _ => true) (fun _ => 0) true 0
      { countries := [], metadata := { total_countries := 0, last_refreshed_at := none } }).2 =
      { countries := [], metadata := { total_countries := 0, last_refreshed_at := none } } ∧
    (refreshCountries .timeout (.success []) (fun _ => true) (fun _ => 0) true 0
      { countries := [], metadata := { total_countries := 0, last_refreshed_at := none } }).1.isOk =
      false :=
  fetch_failure_aborts .timeout (.success []) (fun _ => true) (fun _ => 0) true 0
    { countries := [], metadata := { total_countries := 0, last_refreshed_at := none } }
    (Or.inl rfl)

/-! ## Claim C7 -/

/-- Claim C7, counterexample to the claim as stated: a fetch timeout
throws `"Countries API request timed out"`, whose message does not contain
`"Could not fetch data from"`, so the error handler maps it to
`500 / "Internal server error"` rather than the claimed
`503 / "External data source unavailable"`. -/
theorem timeout_maps_to_500_cex :
    fetchCountries .timeout =
      .error { message := "Countries API request timed out", name := "Error",
               statusCode := none, details := none } ∧
    errorHandler { message := "Countries API request timed out", name := "Error",
                   statusCode := none, details := none } =
      (500, { error := "Internal server error", details := none }) ∧
    ((500, { error := "Internal server error", details := none }) :
        Nat × ErrorResponse) ≠
      (503, { error := "External data source unavailable",
              details := some "Countries API request timed out" }) := by
  refine ⟨rfl, by decide, by decide⟩

/-- Claim C7, amended: non-timeout fetch failures carry a message starting
with `"Could not fetch data from"` and are mapped by the error handler to
HTTP 503 with body `{error: "External data source unavailable", details}`;
timeout failures carry a `"… request timed out"` message and are mapped to
HTTP 500 with body `{error: "Internal server error"}` instead. -/
theorem fetch_error_mapping_amended (msg : String) :
    errorHandler { message := "Could not fetch data from Countries API: " ++ msg,
                   name := "Error", statusCode := none, details := none } =
      (503, { error := "External data source unavailable",
              details := some ("Could not fetch data from Countries API: " ++ msg) }) ∧
    errorHandler { message := "Could not fetch data from Exchange Rate API: " ++ msg,
                   name := "Error", statusCode := none, details := none } =
      (503, { error := "External data source unavailable",
              details := some ("Could not fetch data from Exchange Rate API: " ++ msg) }) ∧
    errorHandler { message := "Countries API request timed out",
                   name := "Error", statusCode := none, details := none } =
      (500, { error := "Internal server error", details := none }) ∧
    errorHandler { message := "Exchange Rate API request timed out",
                   name := "Error", statusCode := none, details := none } =
      (500, { error := "Internal server error", details := none }) := by
  have hC : strIncludes ("Could not fetch data from Countries API: " ++ msg)
      "Could not fetch data from" = true := by
    apply strIncludes_of_toList_split _ _ (" Countries API: ".toList ++ msg.toList)
    have h1 : ("Could not fetch data from Countries API: " ++ msg).toList =
        "Could not fetch data from Countries API: ".toList ++ msg.toList := by
      simp [String.toList]
    rw [h1]
    rw [show "Could not fetch data from Countries API: ".toList =
      "Could not fetch data from".toList ++ " Countries API: ".toList by decide]
    rw [List.append_assoc]
  have hR : strIncludes ("Could not fetch data from Exchange Rate API: " ++ msg)
      "Could not fetch data from" = true := by
    apply strIncludes_of_toList_split _ _ (" Exchange Rate API: ".toList ++ msg.toList)
    have h1 : ("Could not fetch data from Exchange Rate API: " ++ msg).toList =
        "Could not fetch data from Exchange Rate API: ".toList ++ msg.toList := by
      simp [String.toList]
    rw [h1]
    rw [show "Could not fetch data from Exchange Rate API: ".toList =
      "Could not fetch data from".toList ++ " Exchange Rate API: ".toList by decide]
    rw [List.append_assoc]
  refine ⟨?_, ?_, ?_, ?_⟩
  · simp [errorHandler, hC]
  · simp [errorHandler, hR]
  · decide
  · decide

/-! ## Claim C8 -/

/-- Claim C8, counterexample to the claim as stated: with every step up to
and including metadata update succeeding and only image rendering failing,
`refreshCountries` reports the rendering error, not a success with the
processed count — even though the batch is committed and the metadata row
updated (second conjunct). -/
theorem render_failure_errors_cex :
    (refreshCountries
      (.success [{ name := some "Atlantis", capital := none, region := none,
                   population := some 1000, currencies := some [], flag := none }])
      (.success [("NGN", 1600)]) (fun _ => true) (fun _ => 0) false 5
      { countries := [], metadata := { total_countries := 0, last_refreshed_at := none } }).1 =
      .error renderErrorJs ∧
    (refreshCountries
      (.success [{ name := some "Atlantis", capital := none, region := none,
                   population := some 1000, currencies := some [], flag := none }])
      (.success [("NGN", 1600)]) (fun _ => true) (fun _ => 0) false 5
      { countries := [], metadata := { total_countries := 0, last_refreshed_at := none } }).2.metadata =
      { total_countries := 1, last_refreshed_at := some 5 } := by
  constructor <;> rfl

/-- Claim C8, amended: when rendering fails after a fully successful
fetch, reconcile, bulk upsert and metadata update, the committed state
keeps the upserted batch and the updated metadata, but `refreshCountries`
returns the rendering error instead of the success payload. -/
theorem render_failure_state_committed (countries : List RawCountry) (rates : ExchangeRates)
    (rs : Nat → ℚ) (now : Nat) (st : SystemState) (processed : List CountryRecord)
    (hproc : processCountryData rates rs countries = .ok processed) :
    refreshCountries (.success countries) (.success rates) (fun _ => true) rs false now st =
      (.error renderErrorJs,
        updateRefreshMetadata now
          { st with countries := processed.foldl upsertRow st.countries }) := by
  simp [refreshCountries, fetchCountries, fetchExchangeRates, hproc,
    bulkUpsertCountries_all_ok]

/-- Claim C8, witness: the amended statement at a concrete one-record
refresh whose rendering fails. -/
theorem render_failure_state_committed_witness :
    refreshCountries
      (.success [{ name := some "Atlantis", capital := none, region := none,
                   population := some 1000, currencies := some [], flag := none }])
      (.success [("NGN", 1600)]) (fun _ => true) (fun _ => 0) false 5
      { countries := [], metadata := { total_countries := 0, last_refreshed_at := none } } =
      (.error renderErrorJs,
        updateRefreshMetadata 5
          { countries :=
              [{ name := "Atlantis", capital := none, region := none, population := 1000,
                 currency_code := none, exchange_rate := none, estimated_gdp := some 0,
                 flag_url := none }].foldl upsertRow [],
            metadata := { total_countries := 0, last_refreshed_at := none } }) :=
  render_failure_state_committed
    [{ name := some "Atlantis", capital := none, region := none,
       population := some 1000, currencies := some [], flag := none }]
    [("NGN", 1600)] (fun _ => 0) 5
    { countries := [], metadata := { total_countries := 0, last_refreshed_at := none } }
    [{ name := "Atlantis", capital := none, region := none, population := 1000,
       currency_code := none, exchange_rate := none, estimated_gdp := some 0,
       flag_url := none }] rfl

/-! ## Claim C9 -/

/-- Claim C9, counterexample to the claim as stated: a record whose
currencies array starts with a null entry makes the reconciler throw
(`firstCurrency.code` on `null`), aborting the whole batch — the
well-formed second record (shown processable on its own in the second
conjunct) is never reconciled. -/
theorem null_currency_entry_aborts_cex :
    processCountryData [("NGN", 1600)] (fun _ => 0)
      [{ name := some "Badland", capital := none, region := none, population := some 5,
         currencies := some [none, some { code := some "NGN" }], flag := none },
       { name := some "Atlantis", capital := none, region := none, population := some 1000,
         currencies := some [], flag := none }] = .error () ∧
    (processCountry [("NGN", 1600)] 0
      { name := some "Atlantis", capital := none, region := none, population := some 1000,
        currencies := some [], flag := none }).map (fun _ => ()) = .ok () := by
  constructor <;> rfl

/-- Claim C9, amended: the reconciler raises no error on any batch in
which no record's currencies array starts with a null entry — missing or
falsy fields (name, capital, region, population, flag, a missing or falsy
`code`, an absent or empty currencies array) all degrade to defaults and
every such record yields exactly one draft; but a null first currency
entry throws and aborts reconciliation of the entire batch. -/
theorem reconciler_total_on_wellformed (rates : ExchangeRates) (rs : Nat → ℚ)
    (countries : List RawCountry)
    (h : ∀ c ∈ countries, goodFirstCurrency c.currencies = true) :
    (processCountryData rates rs countries).map List.length = .ok countries.length :=
  processCountryDataAux_length rates rs countries 0 h

/-- Claim C9, witness: a concrete two-record batch with assorted missing
fields reconciles to exactly two drafts. -/
theorem reconciler_total_on_wellformed_witness :
    (processCountryData [("NGN", 1600)] (fun _ => 0)
      [{ name := none, capital := none, region := none, population := none,
         currencies := none, flag := none },
       { name := some "Nigeria", capital := some "Abuja", region := some "Africa",
         population := some 7, currencies := some [some { code := some "NGN" }],
         flag := some "f" }]).map List.length = .ok 2 :=
  reconciler_total_on_wellformed [("NGN", 1600)] (fun _ => 0)
    [{ name := none, capital := none, region := none, population := none,
       currencies := none, flag := none },
     { name := some "Nigeria", capital := some "Abuja", region := some "Africa",
       population := some 7, currencies := some [some { code := some "NGN" }],
       flag := some "f" }] (by decide)

/-! ## Claim C10 -/

/-- Claim C10: a record whose currencies array is non-empty but whose
first entry has a missing or falsy `code` is reconciled exactly like the
no-currency case — `currency_code = null`, `exchange_rate = null`,
`estimated_gdp = 0` — for any tail, including tails with resolvable
codes. -/
theorem falsy_first_code_like_no_currency (rates : ExchangeRates) (r : ℚ) (c : RawCountry)
    (e : CurrencyEntry) (tail : List (Option CurrencyEntry))
    (hcur : c.currencies = some (some e :: tail))
    (hcode : e.code = none ∨ e.code = some "") :
    (processCountry rates r c).map
      (fun rec => (rec.currency_code, rec.exchange_rate, rec.estimated_gdp)) =
      .ok (none, none, some 0) := by
  rcases hcode with hcode | hcode <;>
    simp [processCountry, extractCurrencyCode, hcur, hcode,
      jsStrOrNull, jsTruthyStr, Except.map]

/-- Claim C10, witness: the statement at a concrete record whose first
currency entry lacks a code while the second entry's code resolves. -/
theorem falsy_first_code_like_no_currency_witness :
    (processCountry [("NGN", 1600)] 0
      { name := some "Mixland", capital := none, region := none, population := some 50,
        currencies := some [some { code := none }, some { code := some "NGN" }],
        flag := none }).map
      (fun rec => (rec.currency_code, rec.exchange_rate, rec.estimated_gdp)) =
      .ok (none, none, some 0) :=
  falsy_first_code_like_no_currency [("NGN", 1600)] 0
    { name := some "Mixland", capital := none, region := none, population := some 50,
      currencies := some [some { code := none }, some { code := some "NGN" }],
      flag := none }
    { code := none } [some { code := some "NGN" }] rfl (Or.inl rfl)
